import Mathlib

/-!
Shallow embedding of `src/main.py` (naturalnetworks/mtqosadj), a script that
reads DSL attainable rates over SNMP and reconciles MikroTik queue-tree max
limits against them.

Modelling choices:
* Python numeric arithmetic in `subtract_percentage` is modelled over exact
  rationals `ℚ`; the measured rates are integers, the computed limits are
  rationals (Python produces floats there; the exact-rational value is the
  mathematical value of the same expression).
* Remote state is explicit: the SNMP endpoint is a function from OID to an
  outcome, the RouterOS API is the list of `/queue/tree` entries.
* Python runtime errors (`UnboundLocalError` from reading a never-assigned
  local, `TypeError` from `int(None)`, an exception escaping the SNMP call)
  are modelled with `Except`.
* `logging` / `print` side effects are modelled as a list of log lines;
  the kbps formatting of log lines (`bits_to_kbps`, presentation only) is
  not tracked. The list `updates` records every mutating request actually
  issued to the router.
-/

namespace Mtqosadj

/-- Python runtime errors that the embedded code can raise. -/
inductive PyErr where
  | unboundLocal (name : String)
  | typeError (msg : String)
  | snmpException
  deriving DecidableEq, Repr

/-- One `/queue/tree` entry on the RouterOS device: its name, the value of its
`id` attribute (absent when the entry has no id) and the value of its
`max-limit` attribute (modelled as an integer number of bits when present,
absent when the entry has no such attribute). -/
structure QueueEntry where
  name : String
  id : Option String
  maxLimit : Option Int
  deriving DecidableEq, Repr

/-- The RouterOS API connection: the contents of the `/queue/tree` resource. -/
structure Api where
  queueTree : List QueueEntry
  deriving DecidableEq, Repr

/-- `api.get_resource('/queue/tree').get(name=queue_name)`: the entries whose
name matches `queue_name`. -/
def queueTreeGet (api : Api) (queue_name : String) : List QueueEntry :=
  api.queueTree.filter (fun e => e.name == queue_name)

/-- src/main.py lines 85-88: subtract a percentage from a number.
`amount_to_subtract = number * (percentage / 100); result = number -
amount_to_subtract`. No flooring or rounding appears in the source. -/
def subtract_percentage (number percentage : ℚ) : ℚ :=
  let amount_to_subtract := number * (percentage / 100)
  let result := number - amount_to_subtract
  result

/-- Outcome of one SNMP get at the measurement endpoint, i.e. the behaviour of
the environment for one OID: `next(snmp_request)` raises, or it returns with
`error_indication` set, or it returns a value. -/
inductive SnmpResult where
  | raises
  | errorIndication
  | value (v : Int)
  deriving DecidableEq, Repr

/-- src/main.py lines 91-105: perform an SNMP get. If the request raises, the
exception propagates (`.error`). If `error_indication` is set, the function
prints an error and falls off the end, returning Python `None` (`.ok none`).
Otherwise it returns `var_binds[0][1]` (`.ok (some v)`). -/
def snmp_get (env : String → SnmpResult) (oid : String) : Except PyErr (Option Int) :=
  match env oid with
  | .raises => .error .snmpException
  | .errorIndication => .ok none
  | .value v => .ok (some v)

/-- src/main.py lines 107-118: look up a queue by name; when found return its
`id` and `max-limit` attributes (each possibly `None`), otherwise
`(None, None)`. -/
def get_queue_tree_attributes (api : Api) (queue_name : String) :
    Option String × Option Int :=
  match queueTreeGet api queue_name with
  | target :: _ => (target.id, target.maxLimit)
  | [] => (none, none)

/-- The log and print lines emitted by `main`, one constructor per call site.
The two `Queue Tree entry not found.` warnings (src/main.py lines 216 and 237)
get distinct constructors so the two call sites can be told apart. -/
inductive LogLine where
  | ratesLine (down up : Int)
  | errorDownstreamNotFound
  | errorUpstreamNotFound
  | currentMaxLimit (down up : Option Int)
  | queueTreeEntryNotFoundPre
  | settingQueue (name : String) (limit : ℚ)
  | queueIdOrMaxLimitNotSet
  | appliedMaxLimits (down up : Int)
  | queueTreeEntryNotFoundPost
  deriving DecidableEq, Repr

/-- Python truthiness of `queue_id` (a string or `None`). -/
def truthyId : Option String → Bool
  | some s => s != ""
  | none => false

/-- What one call of `set_queue_tree_max_limit` produces: its log lines and the
update requests it issues to the router. -/
structure SetOutcome where
  logs : List LogLine
  updates : List (String × ℚ)
  deriving DecidableEq, Repr

/-- src/main.py lines 120-135: look the queue up by name; the local `queue_id`
is assigned only inside `if target_queue:`, so when the lookup returns no entry
the subsequent `if queue_id and max_limit:` raises `UnboundLocalError`. The
mutating call `queue_tree.set(id=..., max_limit=...)` on line 131 is commented
out in the source, so no update request is appended to `updates` on any path. -/
def set_queue_tree_max_limit (api : Api) (queue_name : String) (max_limit : ℚ) :
    Except PyErr SetOutcome :=
  match queueTreeGet api queue_name with
  | [] => .error (.unboundLocal "queue_id")
  | target :: _ =>
    let queue_id := target.id
    if truthyId queue_id && (max_limit != 0) then
      .ok { logs := [.settingQueue queue_name max_limit], updates := [] }
    else
      .ok { logs := [.queueIdOrMaxLimitNotSet], updates := [] }

/-- Python `int()` applied to the optional `max-limit` attribute value:
raises `TypeError` on `None` (src/main.py lines 226-227 apply it to the second
component of `get_queue_tree_attributes`). -/
def int_of_opt : Option Int → Except PyErr Int
  | none => .error (.typeError "int() argument cannot be NoneType")
  | some n => .ok n

/-- Python `x is not None` for a value produced by `int()`: an int is never
`None`, so the test is identically true. -/
def intIsNotNone (_ : Int) : Bool := true

/-- `rate is None or rate <= 0` (src/main.py lines 180 and 184). -/
def invalidRate : Option Int → Bool
  | none => true
  | some v => decide (v ≤ 0)

/-- How one invocation of the process ends: `main` returns normally, or the
process exits via `exit(code)`, or an uncaught exception propagates. -/
inductive Termination where
  | normal
  | exited (code : Nat)
  | raised (e : PyErr)
  deriving DecidableEq, Repr

/-- The resolved configuration consumed by `main` (config file plus
environment overrides), together with the behaviour of the two remote
collaborators: the SNMP endpoint and the RouterOS API. -/
structure Config where
  download_queue_name : String
  upload_queue_name : String
  snmp_oid_downstream : String
  snmp_oid_upstream : String
  snmp : String → SnmpResult
  api : Api

/-- Everything observable about one invocation of `main`: the log lines, the
mutating update requests issued to the router, whether
`api_pool.disconnect()` (line 239) ran, and how the process terminated. -/
structure MainOutcome where
  logs : List LogLine
  updates : List (String × ℚ)
  disconnected : Bool
  termination : Termination
  deriving DecidableEq, Repr

/-- src/main.py lines 137-239, after the API connection is obtained (lines
152-164; connection acquisition precedes every SNMP read). Both SNMP gets sit
in one `try` whose handler exits with status 1; then each rate is validated;
then the two desired limits are computed with a hard-coded 10 percent margin;
then current queue attributes are read and logged; then the two set calls run;
then both queues are re-read, converted with `int()`, and the applied limits
logged; finally `api_pool.disconnect()` runs. -/
def main (cfg : Config) : MainOutcome :=
  match snmp_get cfg.snmp cfg.snmp_oid_downstream with
  | .error _ => { logs := [], updates := [], disconnected := false, termination := .exited 1 }
  | .ok dsl_downstream_act_rate =>
    match snmp_get cfg.snmp cfg.snmp_oid_upstream with
    | .error _ => { logs := [], updates := [], disconnected := false, termination := .exited 1 }
    | .ok dsl_upstream_act_rate =>
      if invalidRate dsl_downstream_act_rate then
        { logs := [.errorDownstreamNotFound], updates := [], disconnected := false,
          termination := .exited 1 }
      else if invalidRate dsl_upstream_act_rate then
        { logs := [.errorUpstreamNotFound], updates := [], disconnected := false,
          termination := .exited 1 }
      else
        let down := dsl_downstream_act_rate.getD 0
        let up := dsl_upstream_act_rate.getD 0
        let logs1 : List LogLine := [.ratesLine down up]
        let mt_down_queue_set_max_limit := subtract_percentage (down : ℚ) 10
        let mt_up_queue_set_max_limit := subtract_percentage (up : ℚ) 10
        let dlAttrs := get_queue_tree_attributes cfg.api cfg.download_queue_name
        let ulAttrs := get_queue_tree_attributes cfg.api cfg.upload_queue_name
        let logs2 := logs1 ++
          (if dlAttrs.1.isSome && ulAttrs.1.isSome then
            [LogLine.currentMaxLimit dlAttrs.2 ulAttrs.2]
          else
            [LogLine.queueTreeEntryNotFoundPre])
        match set_queue_tree_max_limit cfg.api cfg.download_queue_name
            mt_down_queue_set_max_limit with
        | .error e =>
          { logs := logs2, updates := [], disconnected := false, termination := .raised e }
        | .ok setDown =>
          match set_queue_tree_max_limit cfg.api cfg.upload_queue_name
              mt_up_queue_set_max_limit with
          | .error e =>
            { logs := logs2 ++ setDown.logs, updates := setDown.updates,
              disconnected := false, termination := .raised e }
          | .ok setUp =>
            let logs3 := logs2 ++ setDown.logs ++ setUp.logs
            let ups := setDown.updates ++ setUp.updates
            match int_of_opt (get_queue_tree_attributes cfg.api cfg.download_queue_name).2 with
            | .error e =>
              { logs := logs3, updates := ups, disconnected := false,
                termination := .raised e }
            | .ok dlApplied =>
              match int_of_opt (get_queue_tree_attributes cfg.api cfg.upload_queue_name).2 with
              | .error e =>
                { logs := logs3, updates := ups, disconnected := false,
                  termination := .raised e }
              | .ok ulApplied =>
                if intIsNotNone dlApplied && intIsNotNone ulApplied then
                  { logs := logs3 ++ [.appliedMaxLimits dlApplied ulApplied],
                    updates := ups, disconnected := true, termination := .normal }
                else
                  { logs := logs3 ++ [.queueTreeEntryNotFoundPost],
                    updates := ups, disconnected := true, termination := .normal }

/-- A queue tree holding the two queues of the docstring example
(src/main.py lines 36-41). -/
def docApi : Api :=
  { queueTree := [
      { name := "download", id := some "*1", maxLimit := some 45609063 },
      { name := "upload", id := some "*2", maxLimit := some 9738548 } ] }

/-- SNMP endpoint answering the docstring example rates: 50676736 bps
downstream, 10820608 bps upstream. -/
def docSnmp : String → SnmpResult := fun oid =>
  if oid == "oidDown" then .value 50676736
  else if oid == "oidUp" then .value 10820608
  else .errorIndication

/-- Configuration reproducing the docstring example run. -/
def docConfig : Config :=
  { download_queue_name := "download", upload_queue_name := "upload",
    snmp_oid_downstream := "oidDown", snmp_oid_upstream := "oidUp",
    snmp := docSnmp, api := docApi }

/-- As `docConfig` but the download queue is absent from the router. -/
def missingDownloadConfig : Config :=
  { docConfig with
    api := { queueTree := [
      { name := "upload", id := some "*2", maxLimit := some 9738548 } ] } }

/-- As `docConfig` but every SNMP request raises. -/
def failingReadConfig : Config :=
  { docConfig with snmp := fun _ => SnmpResult.raises }

/-- An API connection whose queue tree is empty. -/
def emptyApi : Api := { queueTree := [] }

/-- Either rate read fails (raises or error indication, hence `None`) or
returns a non-positive value: the disjunction of the faulty-measurement
conditions of src/main.py lines 173-186. -/
def measurementBad (cfg : Config) : Prop :=
  (∃ e, snmp_get cfg.snmp cfg.snmp_oid_downstream = .error e) ∨
  (∃ e, snmp_get cfg.snmp cfg.snmp_oid_upstream = .error e) ∨
  (∃ v, snmp_get cfg.snmp cfg.snmp_oid_downstream = .ok v ∧ invalidRate v = true) ∨
  (∃ v, snmp_get cfg.snmp cfg.snmp_oid_upstream = .ok v ∧ invalidRate v = true)

/-- Helper: a successful `set_queue_tree_max_limit` call logs exactly one line
(either the setting announcement or the not-set error) and issues no update
request. -/
theorem set_ok_shape (api : Api) (queue_name : String) (max_limit : ℚ)
    (r : SetOutcome) (h : set_queue_tree_max_limit api queue_name max_limit = .ok r) :
    (r.logs = [LogLine.settingQueue queue_name max_limit] ∨
      r.logs = [LogLine.queueIdOrMaxLimitNotSet]) ∧ r.updates = [] := by
  unfold set_queue_tree_max_limit at h
  rcases hq : queueTreeGet api queue_name with _ | ⟨target, rest⟩ <;> rw [hq] at h
  · cases h
  · dsimp only at h
    split at h <;> cases h <;> simp

/-- C2 counterexample: at rate 50676736 bps and margin 10 percent the floor of
`r * (1 - m)` is 45609062, but `subtract_percentage` does not return it (no
flooring happens in the code; the exact value is 45609062.4). -/
theorem C2_cex_not_floor :
    ⌊(50676736 : ℚ) * (1 - 10 / 100)⌋ = 45609062 ∧
    subtract_percentage 50676736 10 ≠ ((45609062 : ℤ) : ℚ) := by
  constructor
  · norm_num
  · norm_num [subtract_percentage]

/-- C2 (amended): for every rate `r > 0` and percentage `p` with
`p / 100 ∈ [0, 1)`, the limit computation returns exactly
`r * (1 - p / 100)` as an exact value, with no flooring applied; the result
is an integer only when `r * (1 - p / 100)` happens to be integral. -/
theorem C2_amended_exact_product (r p : ℚ) (hr : 0 < r) (h0 : 0 ≤ p / 100)
    (h1 : p / 100 < 1) : subtract_percentage r p = r * (1 - p / 100) := by
  unfold subtract_percentage
  ring

/-- Witness for `C2_amended_exact_product` at the docstring downstream rate. -/
theorem C2_amended_exact_product_witness :
    0 < (50676736 : ℚ) ∧ 0 ≤ (10 : ℚ) / 100 ∧ (10 : ℚ) / 100 < 1 ∧
    subtract_percentage 50676736 10 = 50676736 * (1 - 10 / 100) :=
  ⟨by norm_num, by norm_num, by norm_num,
    C2_amended_exact_product 50676736 10 (by norm_num) (by norm_num) (by norm_num)⟩

/-- C5 counterexample: the computed limits at the docstring rates equal none of
the four integers the claim offers (neither floor nor round-half-up, for either
direction). -/
theorem C5_cex_neither_floor_nor_round :
    subtract_percentage 50676736 10 ≠ 45609062 ∧
    subtract_percentage 50676736 10 ≠ 45609063 ∧
    subtract_percentage 10820608 10 ≠ 9738547 ∧
    subtract_percentage 10820608 10 ≠ 9738548 := by
  refine ⟨?_, ?_, ?_, ?_⟩ <;> norm_num [subtract_percentage]

/-- C5 (amended): at downstream rate 50676736 bps and margin 10 percent the
computed desired download limit is exactly the non-integer 45609062.4, and at
upstream rate 10820608 bps it is exactly 9738547.2 — the same exact-product
rule, with no integer rounding, holds for both directions. -/
theorem C5_amended_exact_values :
    subtract_percentage 50676736 10 = 45609062.4 ∧
    subtract_percentage 10820608 10 = 9738547.2 := by
  constructor <;> norm_num [subtract_percentage]

/-- C6 counterexample: at margin 0 the computed limit equals the rate, so the
strict inequality claimed for all `m ∈ [0, 1)` fails at `m = 0`. -/
theorem C6_cex_zero_margin_not_strict :
    subtract_percentage 1 0 = 1 ∧ ¬ subtract_percentage 1 0 < 1 := by
  constructor <;> norm_num [subtract_percentage]

/-- C6 (amended): for every rate `r > 0` and percentage `p` with
`p / 100 ∈ (0, 1)` the computed limit is strictly less than `r`; at `p = 0`
the limit equals `r` instead. -/
theorem C6_amended_strict_for_positive_margin (r p : ℚ) (hr : 0 < r)
    (hp : 0 < p / 100) (hp1 : p / 100 < 1) : subtract_percentage r p < r := by
  unfold subtract_percentage
  have h := mul_pos hr hp
  simp only []
  linarith

/-- Witness for `C6_amended_strict_for_positive_margin` at the docstring
upstream rate. -/
theorem C6_amended_strict_witness :
    0 < (10820608 : ℚ) ∧ 0 < (10 : ℚ) / 100 ∧ (10 : ℚ) / 100 < 1 ∧
    subtract_percentage 10820608 10 < 10820608 :=
  ⟨by norm_num, by norm_num, by norm_num,
    C6_amended_strict_for_positive_margin 10820608 10 (by norm_num) (by norm_num)
      (by norm_num)⟩

/-- C7: for every rate `r > 0`, computing the limit with margin 0 returns `r`
itself. -/
theorem C7_zero_margin_identity (r : ℚ) (hr : 0 < r) :
    subtract_percentage r 0 = r := by
  unfold subtract_percentage
  ring

/-- Witness for `C7_zero_margin_identity` at `r = 3`. -/
theorem C7_zero_margin_identity_witness :
    0 < (3 : ℚ) ∧ subtract_percentage 3 0 = 3 :=
  ⟨by norm_num, C7_zero_margin_identity 3 (by norm_num)⟩

/-- Helper: when the looked-up queue exists with a nonempty id and the desired
limit is nonzero, the set call takes the announce branch: it logs the setting
line and issues no update request. -/
theorem set_found_truthy (api : Api) (queue_name : String) (max_limit : ℚ)
    (target : QueueEntry) (rest : List QueueEntry) (s : String)
    (hq : queueTreeGet api queue_name = target :: rest)
    (hid : target.id = some s) (hs : s ≠ "") (hm : max_limit ≠ 0) :
    set_queue_tree_max_limit api queue_name max_limit =
      .ok { logs := [.settingQueue queue_name max_limit], updates := [] } := by
  unfold set_queue_tree_max_limit
  rw [hq]
  simp [truthyId, hid, hs, hm]

/-- Helper: symbolic execution of the full-success path of `main`: both reads
deliver positive rates, both queues are found with a max-limit attribute, and
both set calls succeed. -/
theorem main_success_run (cfg : Config) (d u : Int)
    (hd : snmp_get cfg.snmp cfg.snmp_oid_downstream = .ok (some d))
    (hu : snmp_get cfg.snmp cfg.snmp_oid_upstream = .ok (some u))
    (hdpos : 0 < d) (hupos : 0 < u)
    (dlId ulId : String) (dlMax ulMax : Int)
    (hdl : get_queue_tree_attributes cfg.api cfg.download_queue_name =
      (some dlId, some dlMax))
    (hul : get_queue_tree_attributes cfg.api cfg.upload_queue_name =
      (some ulId, some ulMax))
    (rd ru : SetOutcome)
    (hsd : set_queue_tree_max_limit cfg.api cfg.download_queue_name
      (subtract_percentage (d : ℚ) 10) = .ok rd)
    (hsu : set_queue_tree_max_limit cfg.api cfg.upload_queue_name
      (subtract_percentage (u : ℚ) 10) = .ok ru) :
    main cfg =
      { logs := [LogLine.ratesLine d u,
              LogLine.currentMaxLimit (some dlMax) (some ulMax)] ++
            rd.logs ++ ru.logs ++ [LogLine.appliedMaxLimits dlMax ulMax],
        updates := rd.updates ++ ru.updates,
        disconnected := true, termination := .normal } := by
  unfold main
  rw [hd, hu]
  have hvd : invalidRate (some d) = false := by
    simp [invalidRate]; omega
  have hvu : invalidRate (some u) = false := by
    simp [invalidRate]; omega
  simp only [hvd, hvu, Bool.false_eq_true, if_false, Option.getD_some]
  rw [hdl, hul, hsd, hsu]
  simp [int_of_opt, intIsNotNone, hdl, hul]

/-- C1: in the docstring example run (both queues present, both desired limits
nonzero) the code logs the setting announcement for each direction, yet issues
zero update requests to the router — the mutating call on src/main.py line 131
is commented out, so remote state is never mutated, not mutated exactly once
per direction as claimed. -/
theorem C1_set_call_stubbed_no_update :
    (main docConfig).updates = [] ∧
    LogLine.settingQueue "download" (subtract_percentage 50676736 10)
      ∈ (main docConfig).logs ∧
    LogLine.settingQueue "upload" (subtract_percentage 10820608 10)
      ∈ (main docConfig).logs := by
  have h := main_success_run docConfig 50676736 10820608 rfl rfl
    (by norm_num) (by norm_num) "*1" "*2" 45609063 9738548 rfl rfl
    { logs := [.settingQueue "download" (subtract_percentage ((50676736 : Int) : ℚ) 10)],
      updates := [] }
    { logs := [.settingQueue "upload" (subtract_percentage ((10820608 : Int) : ℚ) 10)],
      updates := [] }
    (set_found_truthy _ _ _ _ [] "*1" rfl rfl (by decide)
      (by norm_num [subtract_percentage]))
    (set_found_truthy _ _ _ _ [] "*2" rfl rfl (by decide)
      (by norm_num [subtract_percentage]))
  rw [h]
  refine ⟨rfl, ?_, ?_⟩ <;> norm_num

/-- C3: whenever either rate read fails or yields a missing, zero or negative
value, the process exits with status 1 and no mutating request is ever issued
to either queue. -/
theorem C3_bad_measurement_exits_nonzero (cfg : Config) (h : measurementBad cfg) :
    (main cfg).termination = .exited 1 ∧ (main cfg).updates = [] := by
  unfold measurementBad at h
  unfold main
  rcases hd : snmp_get cfg.snmp cfg.snmp_oid_downstream with e | vd
  · simp
  rcases hu : snmp_get cfg.snmp cfg.snmp_oid_upstream with e | vu
  · simp
  rcases hvd : invalidRate vd with _ | _
  · rcases hvu : invalidRate vu with _ | _
    · exfalso
      rcases h with ⟨e, he⟩ | ⟨e, he⟩ | ⟨v, hv, hbad⟩ | ⟨v, hv, hbad⟩
      · rw [hd] at he; cases he
      · rw [hu] at he; cases he
      · rw [hd] at hv; cases hv; rw [hvd] at hbad; cases hbad
      · rw [hu] at hv; cases hv; rw [hvu] at hbad; cases hbad
    · simp [hvd, hvu]
  · simp [hvd]

/-- Witness for `C3_bad_measurement_exits_nonzero`: with every SNMP request
raising, the run exits with status 1 and issues no update. -/
theorem C3_bad_measurement_witness :
    measurementBad failingReadConfig ∧
    (main failingReadConfig).termination = .exited 1 ∧
    (main failingReadConfig).updates = [] :=
  ⟨Or.inl ⟨.snmpException, rfl⟩,
    C3_bad_measurement_exits_nonzero failingReadConfig (Or.inl ⟨.snmpException, rfl⟩)⟩

/-- C4: with the download queue absent (and the upload queue present), the run
does not fail gracefully for that direction: it raises `UnboundLocalError` on
`queue_id`, the upload direction is never attempted (its log list stops at the
pre-set warning), and the session is never released — contradicting the claim
that the other direction still completes. -/
theorem C4_missing_queue_aborts_run :
    (main missingDownloadConfig).termination =
      .raised (.unboundLocal "queue_id") ∧
    (main missingDownloadConfig).logs =
      [.ratesLine 50676736 10820608, .queueTreeEntryNotFoundPre] ∧
    (main missingDownloadConfig).disconnected = false := by
  refine ⟨?_, ?_, ?_⟩ <;> decide

/-- C8 counterexample: with the connection established and the downstream read
raising, the process exits with status 1 without ever calling
`api_pool.disconnect()` — the session is not released on this early exit. -/
theorem C8_cex_read_failure_skips_disconnect :
    (main failingReadConfig).termination = .exited 1 ∧
    (main failingReadConfig).disconnected = false := by
  exact ⟨rfl, rfl⟩

/-- C8 (amended): the session is released exactly on the runs that terminate
normally; every early exit (failed or invalid measurement) and every uncaught
exception (missing queue, missing max-limit attribute) terminates the process
without releasing the session. -/
theorem C8_amended_release_iff_normal (cfg : Config) :
    (main cfg).disconnected = true ↔ (main cfg).termination = .normal := by
  unfold main
  dsimp only []
  repeat' split
  all_goals simp

/-- C9: when the queue lookup returns no entries, `set_queue_tree_max_limit`
raises `UnboundLocalError` on `queue_id`; it returns no `SetOutcome` at all, so
the `Queue ID or Max Limit is not set` error branch is not reached on the
missing-queue path and the caller's subsequent statements do not execute. -/
theorem C9_missing_queue_unbound_local (api : Api) (queue_name : String)
    (max_limit : ℚ) (h : queueTreeGet api queue_name = []) :
    set_queue_tree_max_limit api queue_name max_limit =
      .error (.unboundLocal "queue_id") ∧
    ∀ r, set_queue_tree_max_limit api queue_name max_limit ≠ .ok r := by
  unfold set_queue_tree_max_limit
  rw [h]
  exact ⟨rfl, fun r hr => by cases hr⟩

/-- Witness for `C9_missing_queue_unbound_local`: an empty queue tree. -/
theorem C9_missing_queue_witness :
    queueTreeGet emptyApi "download" = [] ∧
    set_queue_tree_max_limit emptyApi "download" 45609062.4 =
      .error (.unboundLocal "queue_id") :=
  ⟨rfl, (C9_missing_queue_unbound_local emptyApi "download" 45609062.4 rfl).1⟩

/-- C10: `int()` applied to a missing max-limit attribute raises `TypeError`
before the `is not None` check can run, and an `int()` result is never `None`,
so the post-set `Queue Tree entry not found.` warning (src/main.py line 237)
is emitted on no run whatsoever. -/
theorem C10_post_set_warning_unreachable (cfg : Config) :
    int_of_opt (none : Option Int) =
      .error (.typeError "int() argument cannot be NoneType") ∧
    LogLine.queueTreeEntryNotFoundPost ∉ (main cfg).logs := by
  refine ⟨rfl, ?_⟩
  unfold main
  dsimp only []
  split
  · simp
  split
  · simp
  split
  · simp
  split
  · simp
  split
  · split <;> simp
  rename_i setDown hsd
  obtain ⟨hld, -⟩ := set_ok_shape _ _ _ _ hsd
  split
  · rcases hld with hld | hld <;> split <;> simp [hld]
  rename_i setUp hsu
  obtain ⟨hlu, -⟩ := set_ok_shape _ _ _ _ hsu
  split
  · rcases hld with hld | hld <;> rcases hlu with hlu | hlu <;> split <;>
      simp [hld, hlu]
  split
  · rcases hld with hld | hld <;> rcases hlu with hlu | hlu <;> split <;>
      simp [hld, hlu]
  split <;> rcases hld with hld | hld <;> rcases hlu with hlu | hlu <;> split <;>
    simp_all [intIsNotNone]

end Mtqosadj
